import Mathlib

set_option maxRecDepth 100000

/-!
Shallow embedding of the DP-900 flashcard application (src/app.py).

The application is a single-file Streamlit app.  Its state lives in
`st.session_state`; we model it as the structure `AppState`.  Question
numbers are Python ints, modelled as `Int`.  Python strings are modelled
as `List Char`, with the string operations the source uses (`str.split`,
`str.strip`, `int()`) given as structural functions on character lists so
that everything is executable.  The per-user persistence layer writes
JSON files; we model the file system as a partial map from file paths to
file data, where file data is either a valid JSON array of integers or
content whose parse raises `json.JSONDecodeError` on load.

`random.shuffle` is modelled as an explicit function parameter
`shuffle : List Int → List Int`; theorems about shuffled playlists assume
it permutes its argument, which is the contract of `random.shuffle`.
Python's `sorted()` is modelled by `List.insertionSort (· ≤ ·)`.

Python `set` iteration order is unspecified, so `json.dump(list(skipped_set))`
serializes the set in an arbitrary order; functions that save therefore take
the serialized enumeration `ser : List Int` as a parameter, and theorems
relate it to the set via `ser.toFinset`.

Python list indexing `playlist[i]` raises `IndexError` when `i` is out of
bounds; the embedding uses `List.getD _ _ 0` and the theorems carry the
in-bounds hypotheses under which the Python code does not raise.
-/

/-- Configuration constant `MIN_QUESTION = 1` (src/app.py line 7). -/
def MIN_QUESTION : Int := 1

/-- Configuration constant `MAX_QUESTION = 177` (src/app.py line 8). -/
def MAX_QUESTION : Int := 177

/-- Configuration constant `DATA_DIR = "user_data"` (src/app.py line 12). -/
def DATA_DIR : List Char := "user_data".data

/-- `st.session_state.all_questions = list(range(MIN_QUESTION, MAX_QUESTION + 1))`
(src/app.py line 31): the fixed question pool 1..177. -/
def questionPool : List Int :=
  (List.range (MAX_QUESTION - MIN_QUESTION + 1).toNat).map (fun (i : Nat) => MIN_QUESTION + (i : Int))

/-- Python `str.strip()` whitespace test: space, tab, LF, CR, vertical tab,
form feed. -/
def pyIsSpace (c : Char) : Bool :=
  c = ' ' || c = '\t' || c = '\n' || c = '\r' || c = '\x0b' || c = '\x0c'

/-- Python `str.strip()`: remove leading and trailing whitespace. -/
def pyStrip (s : List Char) : List Char :=
  ((s.dropWhile pyIsSpace).reverse.dropWhile pyIsSpace).reverse

/-- Python `str.split(',')`: split on commas; the empty string yields
one empty token. -/
def splitOnComma : List Char → List (List Char)
  | [] => [[]]
  | c :: cs =>
    if c = ',' then [] :: splitOnComma cs
    else
      match splitOnComma cs with
      | [] => [[c]]
      | t :: ts => (c :: t) :: ts

/-- Decimal digit run (non-empty, all digits) to its numeric value. -/
def pyDigitsToNat (l : List Char) : Option Nat :=
  if l ≠ [] ∧ l.all Char.isDigit then
    some (l.foldl (fun n c => 10 * n + (c.toNat - 48)) 0)
  else none

/-- Python `int(str)`: strips surrounding whitespace, accepts an optional
sign followed by decimal digits; `none` models the `ValueError` raised on
any other input. -/
def pyInt (s : List Char) : Option Int :=
  match pyStrip s with
  | '-' :: rest => (pyDigitsToNat rest).map (fun n => -(n : Int))
  | '+' :: rest => (pyDigitsToNat rest).map (fun n => (n : Int))
  | t => (pyDigitsToNat t).map (fun n => (n : Int))

/-- The fields of `st.session_state` used by the app's logic
(initialize_session_state, src/app.py lines 24-42). -/
structure AppState where
  authenticated : Bool
  user_name : List Char
  all_questions : List Int
  current_playlist : List Int
  playlist_index : Nat
  showing_answer : Bool
  is_shuffled : Bool
  skipped_questions : Finset Int
deriving DecidableEq

/-- Content of one user-data file: a valid JSON array of integers, or
content whose parse fails with `json.JSONDecodeError`. -/
inductive FileData where
  | valid (l : List Int)
  | corrupt
deriving DecidableEq

/-- The on-disk store: a partial map from file paths to file contents. -/
def Store := List Char → Option FileData

/-- The sanitization step of `get_user_data_file` (src/app.py line 52):
`"".join(c for c in username if c.isalnum() or c in (' ', '.', '_')).strip()`. -/
def sanitize_username (username : List Char) : List Char :=
  pyStrip (username.filter fun c => c.isAlphanum || c = ' ' || c = '.' || c = '_')

/-- `get_user_data_file` (src/app.py lines 46-55): returns
`DATA_DIR/<safe>_skipped.json`, or `None` when sanitization is empty. -/
def get_user_data_file (username : List Char) : Option (List Char) :=
  let safe := sanitize_username username
  if safe = [] then none
  else some (DATA_DIR ++ "/".data ++ safe ++ "_skipped.json".data)

/-- `save_skipped_questions` (src/app.py lines 57-69): writes
`list(skipped_set)` as JSON to the user's file; no-op when
`get_user_data_file` returns `None`.  `ser` is the enumeration
`list(skipped_set)` produced by Python's unspecified set iteration order. -/
def save_skipped_questions (store : Store) (username : List Char) (ser : List Int) : Store :=
  match get_user_data_file username with
  | none => store
  | some path => fun p => if p = path then some (FileData.valid ser) else store p

/-- `load_skipped_questions` (src/app.py lines 71-88): reads the user's file
and returns `set(loaded_list)`; returns the empty set when the file is
missing, the username sanitizes to empty, or the content is corrupt. -/
def load_skipped_questions (store : Store) (username : List Char) : Finset Int :=
  match get_user_data_file username with
  | none => ∅
  | some path =>
    match store path with
    | none => ∅
    | some FileData.corrupt => ∅
    | some (FileData.valid l) => l.toFinset

/-- `build_playlist` (src/app.py lines 97-115): filters skipped questions
out of `all_questions`, shuffles or sorts, and resets the index and the
answer flag.  `shuffle` models `random.shuffle` via `shuffle_array`. -/
def build_playlist (shuffle : List Int → List Int) (s : AppState) : AppState :=
  let available := s.all_questions.filter (fun q => q ∉ s.skipped_questions)
  let playlist := if s.is_shuffled then shuffle available
                  else available.insertionSort (fun a b => a ≤ b)
  { s with current_playlist := playlist, playlist_index := 0, showing_answer := false }

/-- `go_to_playlist_index` (src/app.py lines 139-152): on a non-empty
playlist, an index in `[0, len)` is applied and the answer flag cleared;
otherwise the state is unchanged.  The index is an `Int` because the
prev-button calls this with `playlist_index - 1`. -/
def go_to_playlist_index (index : Int) (s : AppState) : AppState :=
  if s.current_playlist = [] then s
  else if 0 ≤ index ∧ index < (s.current_playlist.length : Int) then
    { s with playlist_index := index.toNat, showing_answer := false }
  else s

/-- `go_to_question_by_number` (src/app.py lines 154-182): parses the text
field; on parse failure or out-of-range value reports an error without
state change; un-skips the number (rebuild + save) when it is skipped;
then looks the number up in the playlist and navigates to it if present
(`list.index` raises `ValueError` when absent, caught at line 178). -/
def go_to_question_by_number (shuffle : List Int → List Int) (qInput : List Char)
    (s : AppState) (store : Store) (ser : List Int) : AppState × Store :=
  match pyInt qInput with
  | none => (s, store)
  | some q =>
    if ¬ (MIN_QUESTION ≤ q ∧ q ≤ MAX_QUESTION) then (s, store)
    else
      let s1 := if q ∈ s.skipped_questions then
                  build_playlist shuffle { s with skipped_questions := s.skipped_questions.erase q }
                else s
      let store1 := if q ∈ s.skipped_questions ∧ s.user_name ≠ [] then
                      save_skipped_questions store s.user_name ser
                    else store
      match s1.current_playlist.indexOf? q with
      | some i => (go_to_playlist_index (i : Int) s1, store1)
      | none => (s1, store1)

/-- `skip_current_question` (src/app.py lines 184-208): adds the question at
the cursor to the skip set, rebuilds the playlist (which resets the index
to 0), then runs the index-adjustment code of lines 201-204, and saves. -/
def skip_current_question (shuffle : List Int → List Int)
    (s : AppState) (store : Store) (ser : List Int) : AppState × Store :=
  if s.current_playlist = [] then (s, store)
  else
    let current_q := s.current_playlist.getD s.playlist_index 0
    let s1 := { s with skipped_questions := insert current_q s.skipped_questions }
    let s2 := build_playlist shuffle s1
    let s3 :=
      if s2.current_playlist.length ≤ s2.playlist_index ∧ 0 < s2.current_playlist.length then
        { s2 with playlist_index := s2.current_playlist.length - 1 }
      else if s2.current_playlist.length = 0 then
        { s2 with playlist_index := 0 }
      else s2
    let store' := if s3.user_name ≠ [] then save_skipped_questions store s3.user_name ser
                  else store
    (s3, store')

/-- The parsing loop of `parse_skipped_input` (src/app.py lines 216-223):
split on commas, strip each token, keep it only when `int()` succeeds and
the value is within `[MIN_QUESTION, MAX_QUESTION]`. -/
def parse_skipped (input : List Char) : Finset Int :=
  (splitOnComma input).foldl
    (fun acc num_str =>
      match pyInt (pyStrip num_str) with
      | some num => if MIN_QUESTION ≤ num ∧ num ≤ MAX_QUESTION then insert num acc else acc
      | none => acc)
    ∅

/-- `parse_skipped_input` (src/app.py lines 210-230): replaces the skip set
with the parsed set, rebuilds the playlist, and saves. -/
def parse_skipped_input (shuffle : List Int → List Int) (input : List Char)
    (s : AppState) (store : Store) (ser : List Int) : AppState × Store :=
  let s1 := build_playlist shuffle { s with skipped_questions := parse_skipped input }
  let store' := if s1.user_name ≠ [] then save_skipped_questions store s1.user_name ser
                else store
  (s1, store')

/-- The answer-toggle button's `on_click` (src/app.py line 336):
`setattr(st.session_state, 'showing_answer', not st.session_state.showing_answer)`. -/
def toggle_answer (s : AppState) : AppState :=
  { s with showing_answer := ! s.showing_answer }

/-- The empty file system. -/

def emptyStore : Store := fun _ => none

def outOfRangeStore : Store :=
  fun p => if p = "user_data/alice_skipped.json".data then some (FileData.valid [9999, 3]) else none

def cState : AppState :=
  { authenticated := true, user_name := [], all_questions := questionPool,
    current_playlist := questionPool, playlist_index := 2, showing_answer := false,
    is_shuffled := false, skipped_questions := ∅ }

def c1State : AppState :=
  { authenticated := true, user_name := "alice".data, all_questions := questionPool,
    current_playlist := [], playlist_index := 0, showing_answer := true,
    is_shuffled := false, skipped_questions := {5} }

def navState : AppState :=
  { authenticated := true, user_name := "alice".data, all_questions := questionPool,
    current_playlist := [5, 9, 23], playlist_index := 0, showing_answer := true,
    is_shuffled := false, skipped_questions := ∅ }


/-- The question pool 1..177 has no duplicate entries. -/
theorem questionPool_nodup : questionPool.Nodup := by
  have h : Function.Injective (fun i : Nat => MIN_QUESTION + (i : Int)) := by
    intro a b hab
    simpa using hab
  exact List.Nodup.map h (List.nodup_range _)

/-- Membership in the question pool is exactly the range check
`MIN_QUESTION ≤ n ≤ MAX_QUESTION`. -/
theorem mem_questionPool (n : Int) :
    n ∈ questionPool ↔ MIN_QUESTION ≤ n ∧ n ≤ MAX_QUESTION := by
  simp only [questionPool, List.mem_map, List.mem_range, MIN_QUESTION, MAX_QUESTION]
  constructor
  · rintro ⟨i, hi, rfl⟩
    omega
  · intro h
    exact ⟨(n - 1).toNat, by omega, by omega⟩

/-- The playlist produced by `build_playlist` is a permutation of
`all_questions` with the skipped questions filtered out, for any `shuffle`
that permutes its argument. -/
theorem build_playlist_perm (shuffle : List Int → List Int)
    (hshuffle : ∀ l : List Int, (shuffle l).Perm l) (s : AppState) :
    (build_playlist shuffle s).current_playlist.Perm
      (s.all_questions.filter (fun q => q ∉ s.skipped_questions)) := by
  unfold build_playlist
  by_cases hsh : s.is_shuffled
  · simp only [hsh, if_true]
    exact hshuffle _
  · simp only [hsh, Bool.false_eq_true, if_false]
    exact List.perm_insertionSort _ _

/-- A question is on the rebuilt playlist exactly when it is in the pool
and not skipped. -/
theorem mem_build_playlist (shuffle : List Int → List Int)
    (hshuffle : ∀ l : List Int, (shuffle l).Perm l) (s : AppState) (n : Int) :
    n ∈ (build_playlist shuffle s).current_playlist ↔
      n ∈ s.all_questions ∧ n ∉ s.skipped_questions := by
  rw [(build_playlist_perm shuffle hshuffle s).mem_iff]
  simp [List.mem_filter]

/-- Navigating by index never touches the skip set. -/
theorem go_to_playlist_index_skipped (i : Int) (s : AppState) :
    (go_to_playlist_index i s).skipped_questions = s.skipped_questions := by
  unfold go_to_playlist_index
  split_ifs <;> rfl

/-- Characterization of the skip-list text parser: a number is in the
parsed set exactly when some comma-separated token strips and parses to it
and it lies within the question pool range. -/
theorem mem_parse_skipped (input : List Char) (n : Int) :
    n ∈ parse_skipped input ↔
      ∃ t ∈ splitOnComma input, pyInt (pyStrip t) = some n ∧
        MIN_QUESTION ≤ n ∧ n ≤ MAX_QUESTION := by
  have main : ∀ (toks : List (List Char)) (acc : Finset Int),
      (n ∈ toks.foldl
        (fun acc num_str =>
          match pyInt (pyStrip num_str) with
          | some num => if MIN_QUESTION ≤ num ∧ num ≤ MAX_QUESTION then insert num acc else acc
          | none => acc) acc) ↔
      (n ∈ acc ∨ ∃ t ∈ toks, pyInt (pyStrip t) = some n ∧
        MIN_QUESTION ≤ n ∧ n ≤ MAX_QUESTION) := by
    intro toks
    induction toks with
    | nil => intro acc; simp
    | cons t ts ih =>
      intro acc
      rw [List.foldl_cons, ih]
      cases hpt : pyInt (pyStrip t) with
      | none =>
        simp only [hpt, List.mem_cons]
        aesop
      | some m =>
        by_cases hr : MIN_QUESTION ≤ m ∧ m ≤ MAX_QUESTION
        · simp only [hpt, if_pos hr, Finset.mem_insert, List.mem_cons]
          aesop
        · simp only [hpt, if_neg hr, List.mem_cons]
          constructor
          · rintro (h | ⟨t', ht', hp⟩)
            · exact Or.inl h
            · exact Or.inr ⟨t', Or.inr ht', hp⟩
          · rintro (h | ⟨t', (rfl | ht'), hp⟩)
            · exact Or.inl h
            · have hn : n = m := Option.some.inj (hp.1.symm.trans hpt)
              exact absurd (hn ▸ hp.2) hr
            · exact Or.inr ⟨t', ht', hp⟩
  have := main (splitOnComma input) ∅
  simpa [parse_skipped] using this

/-- C1: for every skip set that is a subset of the question pool and both
values of the shuffle flag, after `build_playlist` the playlist equals
pool minus the skip set as a set, contains no duplicates, and is sorted
ascending when the shuffle flag is false. -/
theorem build_playlist_pool_minus_skips
    (shuffle : List Int → List Int) (hshuffle : ∀ l : List Int, (shuffle l).Perm l)
    (s : AppState) (hpool : s.all_questions = questionPool)
    (_hsub : s.skipped_questions ⊆ questionPool.toFinset) :
    (build_playlist shuffle s).current_playlist.toFinset
        = questionPool.toFinset \ s.skipped_questions ∧
    (build_playlist shuffle s).current_playlist.Nodup ∧
    (s.is_shuffled = false →
      (build_playlist shuffle s).current_playlist.Sorted (· ≤ ·)) := by
  have hperm : (build_playlist shuffle s).current_playlist.Perm
      (questionPool.filter (fun q => q ∉ s.skipped_questions)) := by
    unfold build_playlist
    by_cases hsh : s.is_shuffled
    · simp only [hsh, if_true, hpool]
      exact hshuffle _
    · simp only [hsh, if_false, hpool, Bool.false_eq_true]
      exact List.perm_insertionSort _ _
  refine ⟨?_, ?_, ?_⟩
  · rw [List.toFinset_eq_of_perm _ _ hperm]
    ext a
    simp [List.mem_filter, Finset.mem_sdiff]
  · exact hperm.symm.nodup (questionPool_nodup.filter _)
  · intro hsh
    unfold build_playlist
    simp only [hsh, if_false, Bool.false_eq_true]
    exact List.sorted_insertionSort _ _

/-- Witness for C1: the identity shuffle, pool 1..177, skip set {5}. -/
theorem build_playlist_pool_minus_skips_witness :
    (build_playlist id c1State).current_playlist.toFinset
        = questionPool.toFinset \ c1State.skipped_questions ∧
    (build_playlist id c1State).current_playlist.Nodup ∧
    (c1State.is_shuffled = false →
      (build_playlist id c1State).current_playlist.Sorted (· ≤ ·)) :=
  build_playlist_pool_minus_skips id (fun l => List.Perm.refl l) c1State rfl (by decide)

/-- C2: evaluation of `skip_current_question` at the failing input: playlist
1..177, cursor 2.  `build_playlist` (line 111 of src/app.py) resets the
index to 0 before the adjustment code of lines 201-204 compares it, so the
adjustment never fires and the cursor ends at 0, not at the old index 2 as
the claim (and the comment on line 200 of src/app.py) describe. -/
theorem skip_current_resets_cursor_to_zero :
    cState.playlist_index = 2 ∧
    (skip_current_question id cState emptyStore [3]).1.current_playlist.length = 176 ∧
    cState.playlist_index < 176 ∧
    (skip_current_question id cState emptyStore [3]).1.playlist_index = 0 :=
  ⟨rfl, by decide, by decide, by decide⟩

/-- C3: `go_to_playlist_index` moves the cursor to the requested index and
clears the showing-answer flag when the index is in `[0, len)` on a
non-empty playlist, leaves the whole state unchanged otherwise, never
changes the playlist, and keeps the cursor inside `[0, len)` whenever it
started there. -/
theorem go_to_playlist_index_contract (i : Int) (s : AppState) :
    (s.current_playlist ≠ [] → 0 ≤ i → i < (s.current_playlist.length : Int) →
      go_to_playlist_index i s =
        { s with playlist_index := i.toNat, showing_answer := false }) ∧
    (s.current_playlist = [] ∨ i < 0 ∨ (s.current_playlist.length : Int) ≤ i →
      go_to_playlist_index i s = s) ∧
    (go_to_playlist_index i s).current_playlist = s.current_playlist ∧
    (s.playlist_index < s.current_playlist.length →
      (go_to_playlist_index i s).playlist_index
        < (go_to_playlist_index i s).current_playlist.length) := by
  refine ⟨?_, ?_, ?_, ?_⟩ <;> unfold go_to_playlist_index
  · intro hne h0 hlt
    rw [if_neg hne, if_pos ⟨h0, hlt⟩]
  · intro hcase
    split_ifs with h1 h2
    · rfl
    · exfalso
      rcases hcase with h | h | h
      · exact h1 h
      · omega
      · omega
    · rfl
  · split_ifs <;> rfl
  · intro hidx
    split_ifs with h1 h2
    · exact hidx
    · simpa using (by omega : i.toNat < s.current_playlist.length)
    · exact hidx

/-- Witness for C3: jumping to index 2 on the playlist [5, 9, 23]. -/
theorem go_to_playlist_index_contract_witness :
    navState.current_playlist ≠ [] ∧ (0 : Int) ≤ 2 ∧
    (2 : Int) < (navState.current_playlist.length : Int) ∧
    go_to_playlist_index 2 navState =
      { navState with playlist_index := 2, showing_answer := false } :=
  ⟨by decide, by decide, by decide,
    (go_to_playlist_index_contract 2 navState).1 (by decide) (by decide) (by decide)⟩

/-- C4: for every user name whose sanitization is non-empty, saving a skip
set and loading it back returns an equal set, for every serialization
order of its elements. -/
theorem save_load_round_trip (store : Store) (u : List Char) (ser : List Int) (S : Finset Int)
    (hu : sanitize_username u ≠ []) (hser : ser.toFinset = S) :
    load_skipped_questions (save_skipped_questions store u ser) u = S := by
  have hfile : get_user_data_file u =
      some (DATA_DIR ++ "/".data ++ sanitize_username u ++ "_skipped.json".data) := by
    simp [get_user_data_file, hu]
  simp [load_skipped_questions, save_skipped_questions, hfile, hser]

/-- Witness for C4: user "alice", set {3, 12} serialized as [12, 3]. -/
theorem save_load_round_trip_witness :
    sanitize_username "alice".data ≠ [] ∧
    ([12, 3] : List Int).toFinset = ({3, 12} : Finset Int) ∧
    load_skipped_questions (save_skipped_questions emptyStore "alice".data [12, 3]) "alice".data
      = ({3, 12} : Finset Int) :=
  ⟨by decide, by decide,
    save_load_round_trip emptyStore "alice".data [12, 3] {3, 12} (by decide) (by decide)⟩

/-- C5: `parse_skipped_input` replaces the skip set wholesale with the
parsed set (no merge with the previous skip set); the parser keeps exactly
the comma-separated tokens that strip and parse to an in-range integer;
and parsing "3, 9999, abc, 12" yields {3, 12}. -/
theorem parse_skipped_replaces_wholesale (shuffle : List Int → List Int) (input : List Char)
    (s : AppState) (store : Store) (ser : List Int) :
    (parse_skipped_input shuffle input s store ser).1.skipped_questions = parse_skipped input ∧
    (∀ n : Int, n ∈ parse_skipped input ↔
      ∃ t ∈ splitOnComma input, pyInt (pyStrip t) = some n ∧
        MIN_QUESTION ≤ n ∧ n ≤ MAX_QUESTION) ∧
    parse_skipped "3, 9999, abc, 12".data = ({3, 12} : Finset Int) :=
  ⟨rfl, fun n => mem_parse_skipped input n, by decide⟩

/-- C6: `go_to_question_by_number` reports an error without state change
when the input does not parse as an integer or is outside the question
pool range; when the number is in range and skipped it erases it from the
skip set, rebuilds the playlist, persists, and then finds the number on
the rebuilt playlist and behaves as `go_to_playlist_index`; when in range
and not skipped it leaves the store untouched and either behaves as
`go_to_playlist_index` on the found index or changes nothing when the
number is not on the playlist. -/
theorem go_to_question_by_number_contract
    (shuffle : List Int → List Int) (hshuffle : ∀ l : List Int, (shuffle l).Perm l)
    (qInput : List Char) (s : AppState) (store : Store) (ser : List Int)
    (hpool : s.all_questions = questionPool) :
    (pyInt qInput = none →
      go_to_question_by_number shuffle qInput s store ser = (s, store)) ∧
    (∀ n : Int, pyInt qInput = some n → ¬ (MIN_QUESTION ≤ n ∧ n ≤ MAX_QUESTION) →
      go_to_question_by_number shuffle qInput s store ser = (s, store)) ∧
    (∀ n : Int, pyInt qInput = some n → MIN_QUESTION ≤ n → n ≤ MAX_QUESTION →
      n ∈ s.skipped_questions →
      (go_to_question_by_number shuffle qInput s store ser).1.skipped_questions
          = s.skipped_questions.erase n ∧
      (go_to_question_by_number shuffle qInput s store ser).2
          = save_skipped_questions store s.user_name ser ∧
      (∃ i, (build_playlist shuffle
              { s with skipped_questions := s.skipped_questions.erase n }).current_playlist.indexOf? n
            = some i ∧
        (go_to_question_by_number shuffle qInput s store ser).1
          = go_to_playlist_index (i : Int)
              (build_playlist shuffle
                { s with skipped_questions := s.skipped_questions.erase n }))) ∧
    (∀ n : Int, pyInt qInput = some n → MIN_QUESTION ≤ n → n ≤ MAX_QUESTION →
      n ∉ s.skipped_questions →
      (go_to_question_by_number shuffle qInput s store ser).2 = store ∧
      (∀ i, s.current_playlist.indexOf? n = some i →
        (go_to_question_by_number shuffle qInput s store ser).1
          = go_to_playlist_index (i : Int) s) ∧
      (s.current_playlist.indexOf? n = none →
        (go_to_question_by_number shuffle qInput s store ser).1 = s)) := by
  refine ⟨?_, ?_, ?_, ?_⟩
  · intro hq
    simp only [go_to_question_by_number, hq]
  · intro n hq hr
    simp only [go_to_question_by_number, hq, if_pos hr]
  · intro n hq h1 h2 hskip
    have hrange : ¬ ¬ (MIN_QUESTION ≤ n ∧ n ≤ MAX_QUESTION) := not_not_intro ⟨h1, h2⟩
    have hmem : n ∈ (build_playlist shuffle
        { s with skipped_questions := s.skipped_questions.erase n }).current_playlist := by
      rw [mem_build_playlist shuffle hshuffle]
      refine ⟨?_, Finset.not_mem_erase n _⟩
      show n ∈ s.all_questions
      rw [hpool, mem_questionPool]
      exact ⟨h1, h2⟩
    have hfound : ∃ i, (build_playlist shuffle
        { s with skipped_questions := s.skipped_questions.erase n }).current_playlist.indexOf? n
          = some i := by
      cases hio : (build_playlist shuffle
          { s with skipped_questions := s.skipped_questions.erase n
          }).current_playlist.indexOf? n with
      | none =>
        exfalso
        have := List.indexOf?_eq_none_iff.mp hio n hmem
        simp at this
      | some i => exact ⟨i, rfl⟩
    obtain ⟨i, hi⟩ := hfound
    have hstore1 : (if n ∈ s.skipped_questions ∧ s.user_name ≠ [] then
          save_skipped_questions store s.user_name ser
        else store)
        = save_skipped_questions store s.user_name ser := by
      by_cases hu : s.user_name = []
      · rw [if_neg (fun h => h.2 hu), hu]
        rfl
      · rw [if_pos ⟨hskip, hu⟩]
    refine ⟨?_, ?_, ⟨i, hi, ?_⟩⟩
    · simp only [go_to_question_by_number, hq, if_neg hrange, if_pos hskip, hi]
      rw [go_to_playlist_index_skipped]
      rfl
    · simp only [go_to_question_by_number, hq, if_neg hrange, if_pos hskip, hstore1, hi]
    · simp only [go_to_question_by_number, hq, if_neg hrange, if_pos hskip, hi]
  · intro n hq h1 h2 hskip
    have hrange : ¬ ¬ (MIN_QUESTION ≤ n ∧ n ≤ MAX_QUESTION) := not_not_intro ⟨h1, h2⟩
    have hstore1 : (if n ∈ s.skipped_questions ∧ s.user_name ≠ [] then
          save_skipped_questions store s.user_name ser
        else store) = store := by
      rw [if_neg (fun h => hskip h.1)]
    refine ⟨?_, ?_, ?_⟩
    · simp only [go_to_question_by_number, hq, if_neg hrange, if_neg hskip, hstore1]
      cases hio : s.current_playlist.indexOf? n <;> simp [hio]
    · intro i hi
      simp only [go_to_question_by_number, hq, if_neg hrange, if_neg hskip, hi]
    · intro hio
      simp only [go_to_question_by_number, hq, if_neg hrange, if_neg hskip, hio]

/-- Witness for C6: the out-of-range input "999" leaves the state unchanged. -/
theorem go_to_question_by_number_contract_witness :
    navState.all_questions = questionPool ∧
    pyInt "999".data = some 999 ∧
    ¬ (MIN_QUESTION ≤ (999 : Int) ∧ (999 : Int) ≤ MAX_QUESTION) ∧
    go_to_question_by_number id "999".data navState emptyStore [] = (navState, emptyStore) :=
  ⟨rfl, by decide, by decide,
    (go_to_question_by_number_contract id (fun l => List.Perm.refl l) "999".data navState
        emptyStore [] rfl).2.1 999 (by decide) (by decide)⟩

/-- C7: for every skip set, shuffle flag, prior cursor and prior
showing-answer value, `build_playlist` sets the cursor to 0 and the
showing-answer flag to false. -/
theorem build_playlist_resets_cursor_and_answer (shuffle : List Int → List Int) (s : AppState) :
    (build_playlist shuffle s).playlist_index = 0 ∧
    (build_playlist shuffle s).showing_answer = false :=
  ⟨rfl, rfl⟩

/-- C8: for every user name whose sanitization is empty, load returns the
empty set and save leaves the store untouched. -/
theorem persistence_noop_on_empty_sanitized_name (store : Store) (u : List Char) (ser : List Int)
    (hu : sanitize_username u = []) :
    load_skipped_questions store u = ∅ ∧ save_skipped_questions store u ser = store := by
  have hfile : get_user_data_file u = none := by
    simp [get_user_data_file, hu]
  refine ⟨?_, ?_⟩
  · simp [load_skipped_questions, hfile]
  · simp [save_skipped_questions, hfile]

/-- Witness for C8: the name "@!*" sanitizes to the empty string. -/
theorem persistence_noop_witness :
    sanitize_username "@!*".data = [] ∧
    load_skipped_questions emptyStore "@!*".data = ∅ ∧
    save_skipped_questions emptyStore "@!*".data [5] = emptyStore :=
  have h := persistence_noop_on_empty_sanitized_name emptyStore "@!*".data [5] (by decide)
  ⟨by decide, h.1, h.2⟩

/-- C9: `toggle_answer` flips the showing-answer flag and changes no other
field of the state. -/
theorem toggle_answer_flips_only_answer_flag (s : AppState) :
    (toggle_answer s).showing_answer = ! s.showing_answer ∧
    (toggle_answer s).current_playlist = s.current_playlist ∧
    (toggle_answer s).playlist_index = s.playlist_index ∧
    (toggle_answer s).skipped_questions = s.skipped_questions ∧
    (toggle_answer s).is_shuffled = s.is_shuffled ∧
    (toggle_answer s).user_name = s.user_name ∧
    (toggle_answer s).authenticated = s.authenticated ∧
    (toggle_answer s).all_questions = s.all_questions :=
  ⟨rfl, rfl, rfl, rfl, rfl, rfl, rfl, rfl⟩

/-- C10: `load_skipped_questions` performs no validation: a file holding
the valid JSON array [9999, 3] loads as the set {9999, 3}, which is not a
subset of the question pool. -/
theorem load_returns_unvalidated_values :
    load_skipped_questions outOfRangeStore "alice".data = ({9999, 3} : Finset Int) ∧
    ¬ load_skipped_questions outOfRangeStore "alice".data ⊆ questionPool.toFinset := by
  refine ⟨by decide, by decide⟩
